import Mathlib

/-!
Shallow embedding of the Axon online-judge core (crates `shared` and
`sandbox`) and proofs about its specification claims.

Modelling conventions:
* Rust `u64`/`u32`/`usize` values are modelled as `Nat`; no arithmetic that
  could overflow occurs in the embedded code, so no wrap-around is needed.
* Rust `i32` values are modelled as `Int`.
* Rust `f64` values are modelled by their 64-bit pattern as a `Nat`
  (`score`, `weight`); the embedded code never computes with them.
* `Uuid` and `DateTime<Utc>` are carried as their canonical textual forms
  (`String`); both crates serialize these types to/from that text through a
  bijection, so a value is identified with its canonical string.
* Rust `String` is valid UTF-8 by construction; byte buffers from a child
  process are `List Nat` and decoding validates them.
-/

/-- `Uuid` values, identified with their canonical hyphenated text form. -/
abbrev Uuid := String

/-- `DateTime<Utc>` values, identified with their RFC 3339 text form. -/
abbrev DateTimeUtc := String

/-- Bit pattern of an `f64` value (crate code never computes with scores). -/
abbrev F64Bits := Nat

/-- An `f64` bit pattern is finite iff its exponent field is not all ones
(`0x7ff`); NaN and the infinities have exponent field `2047`. -/
def isFiniteF64 (b : F64Bits) : Bool :=
  b / 4503599627370496 % 2048 != 2047

/-- Bit pattern of the `f64` value `100.0`. -/
def f64OneHundred : F64Bits := 0x4059000000000000

/-- Bit pattern of the `f64` value `0.0`. -/
def f64Zero : F64Bits := 0

/-- Bit pattern of the `f64` value `1.0` (default test-case weight). -/
def f64One : F64Bits := 0x3FF0000000000000

/-- A quiet NaN bit pattern (`f64::NAN`). -/
def f64NaN : F64Bits := 0x7FF8000000000000

/-- `shared::ProgrammingLanguage`. -/
inductive ProgrammingLanguage where
  | C
  | Cpp
  | Cpp11
  | Cpp14
  | Cpp17
  | Cpp20
  | Python2
  | Python3
  | Java
  | Rust
  | Go
  | JavaScript
  | TypeScript
deriving DecidableEq

/-- `ProgrammingLanguage::needs_compilation`. -/
def ProgrammingLanguage.needs_compilation : ProgrammingLanguage → Bool
  | .C | .Cpp | .Cpp11 | .Cpp14 | .Cpp17 | .Cpp20 | .Java | .Rust | .Go => true
  | .Python2 | .Python3 | .JavaScript | .TypeScript => false

/-- `ProgrammingLanguage::default_compile_flags` (the Rust `match` ends in a
`_ => vec![]` catch-all covering the interpreted languages). -/
def ProgrammingLanguage.default_compile_flags : ProgrammingLanguage → List String
  | .C => ["-O2", "-Wall"]
  | .Cpp => ["-O2", "-Wall", "-std=c++11"]
  | .Cpp11 => ["-O2", "-Wall", "-std=c++11"]
  | .Cpp14 => ["-O2", "-Wall", "-std=c++14"]
  | .Cpp17 => ["-O2", "-Wall", "-std=c++17"]
  | .Cpp20 => ["-O2", "-Wall", "-std=c++20"]
  | .Java => ["-Xlint:all"]
  | .Rust => ["-O"]
  | .Go => []
  | _ => []

/-- `shared::Submission`. -/
structure Submission where
  id : Uuid
  problem_id : Uuid
  user_id : Uuid
  language : ProgrammingLanguage
  source_code : String
  created_at : DateTimeUtc
  time_limit : Nat
  memory_limit : Nat
  priority : Int
  contest_id : Option Uuid
deriving DecidableEq

/-- `Submission::needs_compilation`. -/
def Submission.needs_compilation (s : Submission) : Bool :=
  s.language.needs_compilation

/-- `Submission::default_compile_flags`. -/
def Submission.default_compile_flags (s : Submission) : List String :=
  s.language.default_compile_flags

/-- `shared::TestCase` (`weight` is an `f64`, kept as its bit pattern). -/
structure TestCase where
  id : String
  input : String
  expected_output : String
  time_limit : Option Nat
  memory_limit : Option Nat
  is_hidden : Bool
  weight : F64Bits
deriving DecidableEq

/-- `TestCase::effective_time_limit`: custom limit or the supplied default. -/
def TestCase.effective_time_limit (tc : TestCase) (default_time_limit : Nat) : Nat :=
  tc.time_limit.getD default_time_limit

/-- `TestCase::effective_memory_limit`: custom limit or the supplied default. -/
def TestCase.effective_memory_limit (tc : TestCase) (default_memory_limit : Nat) : Nat :=
  tc.memory_limit.getD default_memory_limit

/-- `shared::JudgeTask`. -/
structure JudgeTask where
  submission : Submission
  test_cases : List TestCase
  needs_compilation : Bool
  use_sandbox : Bool
  compile_flags : Option (List String)
  runtime_args : Option (List String)
deriving DecidableEq

/-- `JudgeTask::new`: derives `needs_compilation` and `compile_flags` from the
submission's language and always sets `use_sandbox`. -/
def JudgeTask.new (submission : Submission) (test_cases : List TestCase) : JudgeTask :=
  let needs_compilation := submission.needs_compilation
  let compile_flags :=
    if needs_compilation then some submission.default_compile_flags else none
  { submission := submission
    test_cases := test_cases
    needs_compilation := needs_compilation
    use_sandbox := true
    compile_flags := compile_flags
    runtime_args := none }

/-- `JudgeTask::max_time_limit`: `iter().map(unwrap_or(submission limit)).max()`
is `List.max?`; `unwrap_or` on the empty-iterator result is `Option.getD`. -/
def JudgeTask.max_time_limit (t : JudgeTask) : Nat :=
  ((t.test_cases.map (fun tc => tc.time_limit.getD t.submission.time_limit)).max?).getD
    t.submission.time_limit

/-- `JudgeTask::max_memory_limit`. -/
def JudgeTask.max_memory_limit (t : JudgeTask) : Nat :=
  ((t.test_cases.map (fun tc => tc.memory_limit.getD t.submission.memory_limit)).max?).getD
    t.submission.memory_limit

/-- `shared::RuntimeErrorType`. -/
inductive RuntimeErrorType where
  | SegmentationFault
  | FloatingPointException
  | DivisionByZero
  | AssertionFailed
  | StackOverflow
  | NullPointerDereference
  | FileOperationError
  | PermissionDenied
  | Other
deriving DecidableEq

/-- `shared::JudgeStatus`; only `RuntimeError` carries a payload. -/
inductive JudgeStatus where
  | Accepted
  | WrongAnswer
  | TimeLimitExceeded
  | MemoryLimitExceeded
  | RuntimeError (t : RuntimeErrorType)
  | CompileError
  | RestrictedOperation
  | OutputLimitExceeded
  | SystemError
  | Pending
  | Judging
  | Cancelled
deriving DecidableEq

/-- `JudgeStatus::is_accepted`. -/
def JudgeStatus.is_accepted : JudgeStatus → Bool
  | .Accepted => true
  | _ => false

/-- `JudgeStatus::is_final`: `!matches!(self, Pending | Judging)`. -/
def JudgeStatus.is_final (s : JudgeStatus) : Bool :=
  !(match s with
    | .Pending | .Judging => true
    | _ => false)

/-- `shared::ErrorInfo`. -/
structure ErrorInfo where
  message : String
  code : Option String
  line : Option Nat
  column : Option Nat
  stderr : Option String
  stdout : Option String
  exit_code : Option Int
  signal : Option Int
deriving DecidableEq

/-- `shared::TestCaseResult`. -/
structure TestCaseResult where
  id : String
  status : JudgeStatus
  time_used : Nat
  memory_used : Nat
  input : Option String
  expected_output : Option String
  actual_output : Option String
  error_info : Option ErrorInfo
deriving DecidableEq

/-- `shared::JudgeResult` (`score` is an `f64`, kept as its bit pattern). -/
structure JudgeResult where
  status : JudgeStatus
  time_used : Nat
  memory_used : Nat
  error_info : Option ErrorInfo
  test_cases : List TestCaseResult
  submission_id : Uuid
  problem_id : Uuid
  user_id : Uuid
  judged_at : DateTimeUtc
  score : F64Bits
deriving DecidableEq

/-- `JudgeResult::accepted`; `Utc::now()` is passed explicitly as `now`. -/
def JudgeResult.accepted (time_used memory_used : Nat)
    (submission_id problem_id user_id : Uuid) (now : DateTimeUtc) : JudgeResult :=
  { status := .Accepted
    time_used := time_used
    memory_used := memory_used
    error_info := none
    test_cases := []
    submission_id := submission_id
    problem_id := problem_id
    user_id := user_id
    judged_at := now
    score := f64OneHundred }

/-- `JudgeResult::with_error`; `Utc::now()` is passed explicitly as `now`. -/
def JudgeResult.with_error (status : JudgeStatus) (time_used memory_used : Nat)
    (error_info : ErrorInfo) (submission_id problem_id user_id : Uuid)
    (now : DateTimeUtc) : JudgeResult :=
  { status := status
    time_used := time_used
    memory_used := memory_used
    error_info := some error_info
    test_cases := []
    submission_id := submission_id
    problem_id := problem_id
    user_id := user_id
    judged_at := now
    score := f64Zero }

/-- `JudgeResult::add_test_case`: pushes onto the result's test-case list,
touching no other field. -/
def JudgeResult.add_test_case (r : JudgeResult) (test_case : TestCaseResult) : JudgeResult :=
  { r with test_cases := r.test_cases ++ [test_case] }

/-- `JudgeResult::passed_test_cases`:
`test_cases.iter().filter(|tc| tc.status.is_accepted()).count()`. -/
def JudgeResult.passed_test_cases (r : JudgeResult) : Nat :=
  (r.test_cases.filter (fun tc => tc.status.is_accepted)).length

/-- `JudgeResult::total_test_cases`. -/
def JudgeResult.total_test_cases (r : JudgeResult) : Nat :=
  r.test_cases.length

/-!
JSON documents (the `serde_json::Value` layer).  `serde_json` text output is
in bijection with this layer for the documents produced here: `u64` and
finite `f64` numbers print and re-parse losslessly, a non-finite `f64` is
written by `serde_json` as `null`, and `null` does not re-parse as an `f64`.
A finite `f64` number is carried by `fnum` as its bit pattern, an `i32` by
`int`, a `u64`/`u32` by `nat`.
-/

/-- A JSON value. -/
inductive Json where
  | null
  | bool (b : Bool)
  | nat (n : Nat)
  | int (z : Int)
  | fnum (bits : F64Bits)
  | str (s : String)
  | arr (elems : List Json)
  | obj (fields : List (String × Json))

/-- Key lookup in the field list of a JSON object. -/
def Json.lookupField : List (String × Json) → String → Option Json
  | [], _ => none
  | (k, v) :: rest, key => if k = key then some v else Json.lookupField rest key

/-- Key lookup in a JSON value (an object member, or `none` otherwise). -/
def Json.lookup (j : Json) (key : String) : Option Json :=
  match j with
  | .obj fields => Json.lookupField fields key
  | _ => none

/-!
`sandbox::ContainerSandbox::create_container_config`, translated from the
`serde_json::json!` literal: the OCI runtime configuration written to
`config.json` in the bundle directory.
-/

/-- One read-only rbind mount of a host directory, as repeated in the
`mounts` list of the generated configuration. -/
def roBindMount (destination source : String) : Json :=
  .obj [("destination", .str destination),
        ("type", .str "bind"),
        ("source", .str source),
        ("options", .arr [.str "rbind", .str "ro", .str "nosuid", .str "nodev"])]

/-- The OCI configuration document generated for one command invocation
(`ContainerSandbox::create_container_config`); `rootfs` is `self.rootfs`. -/
def create_container_config (rootfs command : String) (args : List String) : Json :=
  let full_args := command :: args
  .obj [
    ("ociVersion", .str "1.0.0"),
    ("process", .obj [
      ("terminal", .bool false),
      ("user", .obj [("uid", .nat 0), ("gid", .nat 0)]),
      ("args", .arr (full_args.map .str)),
      ("env", .arr [.str "PATH=/bin:/usr/bin:/usr/local/bin",
                    .str "HOME=/root",
                    .str "TERM=xterm"]),
      ("cwd", .str "/workspace"),
      ("capabilities", .obj [
        ("bounding", .arr []),
        ("effective", .arr []),
        ("inheritable", .arr []),
        ("permitted", .arr []),
        ("ambient", .arr [])])]),
    ("root", .obj [("path", .str rootfs), ("readonly", .bool false)]),
    ("hostname", .str "sandbox"),
    ("mounts", .arr [
      .obj [("destination", .str "/proc"),
            ("type", .str "proc"),
            ("source", .str "proc")],
      .obj [("destination", .str "/dev"),
            ("type", .str "tmpfs"),
            ("source", .str "tmpfs"),
            ("options", .arr [.str "nosuid", .str "strictatime",
                              .str "mode=755", .str "size=65536k"])],
      roBindMount "/bin" "/usr/bin",
      roBindMount "/usr/bin" "/usr/bin",
      roBindMount "/lib" "/lib",
      roBindMount "/lib64" "/lib64",
      roBindMount "/usr/lib" "/usr/lib",
      roBindMount "/usr/lib64" "/usr/lib64",
      .obj [("destination", .str "/workspace"),
            ("type", .str "tmpfs"),
            ("source", .str "tmpfs"),
            ("options", .arr [.str "rw", .str "nosuid", .str "nodev",
                              .str "size=1048576k"])]]),
    ("linux", .obj [
      ("resources", .obj [
        ("devices", .arr [.obj [("allow", .bool false), ("access", .str "rwm")]])]),
      ("namespaces", .arr [
        .obj [("type", .str "pid")],
        .obj [("type", .str "network")],
        .obj [("type", .str "ipc")],
        .obj [("type", .str "uts")],
        .obj [("type", .str "mount")],
        .obj [("type", .str "user")]]),
      ("uidMappings", .arr [
        .obj [("containerID", .nat 0), ("hostID", .nat 1000), ("size", .nat 1)]]),
      ("gidMappings", .arr [
        .obj [("containerID", .nat 0), ("hostID", .nat 1000), ("size", .nat 1)]])])]

/-!
Filesystem model for rootfs provisioning (`ContainerSandbox::new`).  A path
is its component list; a filesystem tracks which paths are directories and
which are regular files.  `std::fs::create_dir_all` succeeds when the target
already exists as a directory and fails only when the target or one of its
ancestors exists as a non-directory; it never inspects other entries.
-/

/-- A filesystem path as its list of components (relative to the root). -/
abbrev FsPath := List String

/-- Directories and regular files currently present on the host. -/
structure Fsys where
  dirs : List FsPath
  files : List FsPath
deriving DecidableEq

/-- `std::fs::create_dir_all`: fails iff the path or an ancestor of it is an
existing regular file; otherwise records the path and all its ancestors as
directories. -/
def create_dir_all (fs : Fsys) (p : FsPath) : Option Fsys :=
  if p.inits.any (fun q => fs.files.contains q) then
    none
  else
    some { fs with
      dirs := fs.dirs ++
        (p.inits.filter (fun q => !q.isEmpty && !fs.dirs.contains q)) }

/-- `sandbox::ContainerSandbox`: the instance identity and its private
rootfs path. -/
structure ContainerSandbox where
  container_id : String
  rootfs : FsPath
deriving DecidableEq

/-- `ContainerSandbox::new`: the twelve `create_dir_all` calls of the source,
in order, threaded through the filesystem; returns the sandbox value and the
resulting filesystem. -/
def ContainerSandbox.new (container_id : String) (rootfs : FsPath) (fs : Fsys) :
    Option (ContainerSandbox × Fsys) := do
  let fs ← create_dir_all fs rootfs
  let fs ← create_dir_all fs (rootfs ++ ["bin"])
  let fs ← create_dir_all fs (rootfs ++ ["usr", "bin"])
  let fs ← create_dir_all fs (rootfs ++ ["lib"])
  let fs ← create_dir_all fs (rootfs ++ ["lib64"])
  let fs ← create_dir_all fs (rootfs ++ ["etc"])
  let fs ← create_dir_all fs (rootfs ++ ["proc"])
  let fs ← create_dir_all fs (rootfs ++ ["sys"])
  let fs ← create_dir_all fs (rootfs ++ ["dev"])
  let fs ← create_dir_all fs (rootfs ++ ["dev", "pts"])
  let fs ← create_dir_all fs (rootfs ++ ["dev", "shm"])
  let fs ← create_dir_all fs (rootfs ++ ["workspace"])
  return ({ container_id := container_id, rootfs := rootfs }, fs)

/-!
Execution model for `ContainerSandbox::run_command`, `cleanup` and
`cleanup_rootfs`.  Each method's externally visible behaviour is the ordered
list of side-effecting operations it performs plus its return value; the
outcomes of the fallible host interactions (the `config.json` write and the
`runc` invocation) are inputs to the model.
-/

/-- UTF-8 validity of a byte sequence, as checked by `String::from_utf8`
(continuation ranges, overlong forms, surrogates and values above U+10FFFF
are rejected). -/
def validUtf8 : List Nat → Bool
  | [] => true
  | b :: rest =>
    if b < 0x80 then validUtf8 rest
    else if 0xC2 ≤ b && b ≤ 0xDF then
      match rest with
      | c1 :: r => (0x80 ≤ c1 && c1 ≤ 0xBF) && validUtf8 r
      | [] => false
    else if b == 0xE0 then
      match rest with
      | c1 :: c2 :: r =>
        (0xA0 ≤ c1 && c1 ≤ 0xBF) && (0x80 ≤ c2 && c2 ≤ 0xBF) && validUtf8 r
      | _ => false
    else if (0xE1 ≤ b && b ≤ 0xEC) || b == 0xEE || b == 0xEF then
      match rest with
      | c1 :: c2 :: r =>
        (0x80 ≤ c1 && c1 ≤ 0xBF) && (0x80 ≤ c2 && c2 ≤ 0xBF) && validUtf8 r
      | _ => false
    else if b == 0xED then
      match rest with
      | c1 :: c2 :: r =>
        (0x80 ≤ c1 && c1 ≤ 0x9F) && (0x80 ≤ c2 && c2 ≤ 0xBF) && validUtf8 r
      | _ => false
    else if b == 0xF0 then
      match rest with
      | c1 :: c2 :: c3 :: r =>
        (0x90 ≤ c1 && c1 ≤ 0xBF) && (0x80 ≤ c2 && c2 ≤ 0xBF) &&
          (0x80 ≤ c3 && c3 ≤ 0xBF) && validUtf8 r
      | _ => false
    else if 0xF1 ≤ b && b ≤ 0xF3 then
      match rest with
      | c1 :: c2 :: c3 :: r =>
        (0x80 ≤ c1 && c1 ≤ 0xBF) && (0x80 ≤ c2 && c2 ≤ 0xBF) &&
          (0x80 ≤ c3 && c3 ≤ 0xBF) && validUtf8 r
      | _ => false
    else if b == 0xF4 then
      match rest with
      | c1 :: c2 :: c3 :: r =>
        (0x80 ≤ c1 && c1 ≤ 0x8F) && (0x80 ≤ c2 && c2 ≤ 0xBF) &&
          (0x80 ≤ c3 && c3 ≤ 0xBF) && validUtf8 r
      | _ => false
    else false

/-- `String::from_utf8` on captured bytes: a Rust `String` is its UTF-8 byte
content, so decoding is validity-gated identity on the bytes. -/
def string_from_utf8 (bytes : List Nat) : Option (List Nat) :=
  if validUtf8 bytes then some bytes else none

/-- Captured outcome of the `runc run` child process
(`std::process::Output`). -/
structure RuncOutput where
  success : Bool
  stdout : List Nat
  stderr : List Nat
deriving DecidableEq

/-- A side-effecting host operation performed by the sandbox methods. -/
inductive SandboxOp where
  | writeConfig (rootfs : FsPath)
  | runcRun (bundle : FsPath) (container_id : String)
  | runcDelete (container_id : String)
  | removeDirAll (path : FsPath)
deriving DecidableEq

/-- Whether an operation releases sandbox state (backend deletion or rootfs
removal). -/
def SandboxOp.isCleanup : SandboxOp → Bool
  | .runcDelete _ => true
  | .removeDirAll _ => true
  | _ => false

/-- Errors surfaced by `run_command` (`anyhow::Error` values). -/
inductive RunError where
  | ioError
  | invalidUtf8
  | commandFailed (stderr : List Nat)
deriving DecidableEq

/-- `ContainerSandbox::run_command`: writes `config.json`, invokes
`runc run --bundle rootfs id`, then returns the decoded stdout on success or
an error embedding the decoded stderr otherwise.  `write_ok` is the outcome
of the `config.json` write and `spawn` the outcome of launching `runc`
(`none` when the invocation itself fails); both failures propagate via `?`.
The first component is the ordered trace of host operations performed. -/
def ContainerSandbox.run_command (sb : ContainerSandbox) (write_ok : Bool)
    (spawn : Option RuncOutput) : List SandboxOp × Except RunError (List Nat) :=
  if !write_ok then
    ([.writeConfig sb.rootfs], .error .ioError)
  else
    let ops := [SandboxOp.writeConfig sb.rootfs,
                SandboxOp.runcRun sb.rootfs sb.container_id]
    match spawn with
    | none => (ops, .error .ioError)
    | some output =>
      if output.success then
        match string_from_utf8 output.stdout with
        | some s => (ops, .ok s)
        | none => (ops, .error .invalidUtf8)
      else
        match string_from_utf8 output.stderr with
        | some e => (ops, .error (.commandFailed e))
        | none => (ops, .error .invalidUtf8)

/-- `ContainerSandbox::cleanup`: runs `runc delete id`, ignoring its result. -/
def ContainerSandbox.cleanup (sb : ContainerSandbox) : List SandboxOp :=
  [.runcDelete sb.container_id]

/-- `ContainerSandbox::cleanup_rootfs`: removes the rootfs tree when it
exists (`rootfs_exists` is the `Path::exists` probe). -/
def ContainerSandbox.cleanup_rootfs (sb : ContainerSandbox)
    (rootfs_exists : Bool) : List SandboxOp :=
  if rootfs_exists then [.removeDirAll sb.rootfs] else []

/-!
The `serde` derived serialization of the verdict types, at the JSON value
layer.  The derive macros produce the externally tagged encoding: a unit
enum variant is its name as a string, a newtype variant is a one-field
object, a struct is an object listing its fields in declaration order, an
`Option` is `null` or the bare payload.  `serde_json` writes a non-finite
`f64` as `null`, and refuses `null` when deserializing an `f64`.  The
decoders below are `serde`'s deserializers restricted to the canonical
field order the serializers emit (Rust additionally accepts reordered
fields, which never arise in a round trip).
-/

/-- Serialization of an `Option` (`null` or the bare payload). -/
def encodeOpt (f : α → Json) : Option α → Json
  | none => .null
  | some a => f a

/-- Whether a JSON value is `null`. -/
def Json.isNull : Json → Bool
  | .null => true
  | _ => false

/-- Deserialization of an `Option`. -/
def decodeOpt (f : Json → Option α) (j : Json) : Option (Option α) :=
  if j.isNull then some none else (f j).map some

/-- Deserialization of a string field. -/
def decodeString : Json → Option String
  | .str s => some s
  | _ => none

/-- Deserialization of a `u64`/`u32` field. -/
def decodeNat : Json → Option Nat
  | .nat n => some n
  | _ => none

/-- Deserialization of an `i32` field. -/
def decodeInt : Json → Option Int
  | .int z => some z
  | _ => none

/-- Serialization of an `f64` field: finite values print losslessly, a
non-finite value is written as `null` by `serde_json`. -/
def encodeF64 (bits : F64Bits) : Json :=
  if isFiniteF64 bits then .fnum bits else .null

/-- Deserialization of an `f64` field (`null` is not a valid `f64`). -/
def decodeF64 : Json → Option F64Bits
  | .fnum bits => some bits
  | _ => none

/-- Deserialization of a JSON array elementwise. -/
def decodeList (f : Json → Option α) : List Json → Option (List α)
  | [] => some []
  | j :: rest => do
    let a ← f j
    let as ← decodeList f rest
    return a :: as

/-- Serialization of `RuntimeErrorType` (unit variants only). -/
def encodeRuntimeErrorType : RuntimeErrorType → Json
  | .SegmentationFault => .str "SegmentationFault"
  | .FloatingPointException => .str "FloatingPointException"
  | .DivisionByZero => .str "DivisionByZero"
  | .AssertionFailed => .str "AssertionFailed"
  | .StackOverflow => .str "StackOverflow"
  | .NullPointerDereference => .str "NullPointerDereference"
  | .FileOperationError => .str "FileOperationError"
  | .PermissionDenied => .str "PermissionDenied"
  | .Other => .str "Other"

/-- Deserialization of `RuntimeErrorType`. -/
def decodeRuntimeErrorType : Json → Option RuntimeErrorType
  | .str s =>
    if s = "SegmentationFault" then some .SegmentationFault
    else if s = "FloatingPointException" then some .FloatingPointException
    else if s = "DivisionByZero" then some .DivisionByZero
    else if s = "AssertionFailed" then some .AssertionFailed
    else if s = "StackOverflow" then some .StackOverflow
    else if s = "NullPointerDereference" then some .NullPointerDereference
    else if s = "FileOperationError" then some .FileOperationError
    else if s = "PermissionDenied" then some .PermissionDenied
    else if s = "Other" then some .Other
    else none
  | _ => none

/-- Serialization of `JudgeStatus`: unit variants as strings, the
`RuntimeError` newtype variant as a one-field object. -/
def encodeJudgeStatus : JudgeStatus → Json
  | .Accepted => .str "Accepted"
  | .WrongAnswer => .str "WrongAnswer"
  | .TimeLimitExceeded => .str "TimeLimitExceeded"
  | .MemoryLimitExceeded => .str "MemoryLimitExceeded"
  | .RuntimeError t => .obj [("RuntimeError", encodeRuntimeErrorType t)]
  | .CompileError => .str "CompileError"
  | .RestrictedOperation => .str "RestrictedOperation"
  | .OutputLimitExceeded => .str "OutputLimitExceeded"
  | .SystemError => .str "SystemError"
  | .Pending => .str "Pending"
  | .Judging => .str "Judging"
  | .Cancelled => .str "Cancelled"

/-- Deserialization of `JudgeStatus`. -/
def decodeJudgeStatus : Json → Option JudgeStatus
  | .str s =>
    if s = "Accepted" then some .Accepted
    else if s = "WrongAnswer" then some .WrongAnswer
    else if s = "TimeLimitExceeded" then some .TimeLimitExceeded
    else if s = "MemoryLimitExceeded" then some .MemoryLimitExceeded
    else if s = "CompileError" then some .CompileError
    else if s = "RestrictedOperation" then some .RestrictedOperation
    else if s = "OutputLimitExceeded" then some .OutputLimitExceeded
    else if s = "SystemError" then some .SystemError
    else if s = "Pending" then some .Pending
    else if s = "Judging" then some .Judging
    else if s = "Cancelled" then some .Cancelled
    else none
  | .obj [("RuntimeError", v)] => (decodeRuntimeErrorType v).map .RuntimeError
  | _ => none

/-- Serialization of `ErrorInfo` (fields in declaration order). -/
def encodeErrorInfo (e : ErrorInfo) : Json :=
  .obj [("message", .str e.message),
        ("code", encodeOpt Json.str e.code),
        ("line", encodeOpt Json.nat e.line),
        ("column", encodeOpt Json.nat e.column),
        ("stderr", encodeOpt Json.str e.stderr),
        ("stdout", encodeOpt Json.str e.stdout),
        ("exit_code", encodeOpt Json.int e.exit_code),
        ("signal", encodeOpt Json.int e.signal)]

/-- Deserialization of `ErrorInfo` from its canonical field layout. -/
def decodeErrorInfo : Json → Option ErrorInfo
  | .obj [(k1, m), (k2, c), (k3, l), (k4, col), (k5, se), (k6, so), (k7, ec),
          (k8, sg)] =>
    if k1 = "message" ∧ k2 = "code" ∧ k3 = "line" ∧ k4 = "column" ∧
        k5 = "stderr" ∧ k6 = "stdout" ∧ k7 = "exit_code" ∧ k8 = "signal" then do
      let message ← decodeString m
      let code ← decodeOpt decodeString c
      let line ← decodeOpt decodeNat l
      let column ← decodeOpt decodeNat col
      let stderr ← decodeOpt decodeString se
      let stdout ← decodeOpt decodeString so
      let exit_code ← decodeOpt decodeInt ec
      let signal ← decodeOpt decodeInt sg
      return { message := message, code := code, line := line, column := column,
               stderr := stderr, stdout := stdout, exit_code := exit_code,
               signal := signal }
    else none
  | _ => none

/-- Serialization of `TestCaseResult` (fields in declaration order). -/
def encodeTestCaseResult (t : TestCaseResult) : Json :=
  .obj [("id", .str t.id),
        ("status", encodeJudgeStatus t.status),
        ("time_used", .nat t.time_used),
        ("memory_used", .nat t.memory_used),
        ("input", encodeOpt Json.str t.input),
        ("expected_output", encodeOpt Json.str t.expected_output),
        ("actual_output", encodeOpt Json.str t.actual_output),
        ("error_info", encodeOpt encodeErrorInfo t.error_info)]

/-- Deserialization of `TestCaseResult` from its canonical field layout. -/
def decodeTestCaseResult : Json → Option TestCaseResult
  | .obj [(k1, i), (k2, st), (k3, tu), (k4, mu), (k5, inp), (k6, exp),
          (k7, act), (k8, ei)] =>
    if k1 = "id" ∧ k2 = "status" ∧ k3 = "time_used" ∧ k4 = "memory_used" ∧
        k5 = "input" ∧ k6 = "expected_output" ∧ k7 = "actual_output" ∧
        k8 = "error_info" then do
      let id ← decodeString i
      let status ← decodeJudgeStatus st
      let time_used ← decodeNat tu
      let memory_used ← decodeNat mu
      let input ← decodeOpt decodeString inp
      let expected_output ← decodeOpt decodeString exp
      let actual_output ← decodeOpt decodeString act
      let error_info ← decodeOpt decodeErrorInfo ei
      return { id := id, status := status, time_used := time_used,
               memory_used := memory_used, input := input,
               expected_output := expected_output,
               actual_output := actual_output, error_info := error_info }
    else none
  | _ => none

/-- Serialization of `JudgeResult` (fields in declaration order; `Uuid` and
`DateTime<Utc>` serialize to their canonical strings). -/
def encodeJudgeResult (r : JudgeResult) : Json :=
  .obj [("status", encodeJudgeStatus r.status),
        ("time_used", .nat r.time_used),
        ("memory_used", .nat r.memory_used),
        ("error_info", encodeOpt encodeErrorInfo r.error_info),
        ("test_cases", .arr (r.test_cases.map encodeTestCaseResult)),
        ("submission_id", .str r.submission_id),
        ("problem_id", .str r.problem_id),
        ("user_id", .str r.user_id),
        ("judged_at", .str r.judged_at),
        ("score", encodeF64 r.score)]

/-- Deserialization of a JSON array. -/
def decodeArr (f : Json → Option α) : Json → Option (List α)
  | .arr elems => decodeList f elems
  | _ => none

/-- Deserialization of `JudgeResult` from its canonical field layout. -/
def decodeJudgeResult : Json → Option JudgeResult
  | .obj [(k1, st), (k2, tu), (k3, mu), (k4, ei), (k5, tcs), (k6, sid),
          (k7, pid), (k8, uid), (k9, ja), (k10, sc)] =>
    if k1 = "status" ∧ k2 = "time_used" ∧ k3 = "memory_used" ∧
        k4 = "error_info" ∧ k5 = "test_cases" ∧ k6 = "submission_id" ∧
        k7 = "problem_id" ∧ k8 = "user_id" ∧ k9 = "judged_at" ∧
        k10 = "score" then do
      let status ← decodeJudgeStatus st
      let time_used ← decodeNat tu
      let memory_used ← decodeNat mu
      let error_info ← decodeOpt decodeErrorInfo ei
      let test_cases ← decodeArr decodeTestCaseResult tcs
      let submission_id ← decodeString sid
      let problem_id ← decodeString pid
      let user_id ← decodeString uid
      let judged_at ← decodeString ja
      let score ← decodeF64 sc
      return { status := status, time_used := time_used,
               memory_used := memory_used, error_info := error_info,
               test_cases := test_cases, submission_id := submission_id,
               problem_id := problem_id, user_id := user_id,
               judged_at := judged_at, score := score }
    else none
  | _ => none

/-!
Concrete inputs used by individual witnesses and counterexamples.
-/

/-- An accepted per-case result (the first case of the crate's own
`test_usage_examples`). -/
def c1_ok_case : TestCaseResult :=
  { id := "test_1", status := .Accepted, time_used := 50, memory_used := 256,
    input := some "1 2", expected_output := some "3",
    actual_output := some "3", error_info := none }

/-- A wrong-answer per-case result (the second case of the crate's own
`test_usage_examples`). -/
def c1_wa_case : TestCaseResult :=
  { id := "test_2", status := .WrongAnswer, time_used := 75, memory_used := 384,
    input := some "5 7", expected_output := some "12",
    actual_output := some "13", error_info := none }

/-- The crate's own example 4: a result built by `JudgeResult::accepted`
followed by two `add_test_case` calls, one of them not accepted. -/
def c1_result : JudgeResult :=
  ((JudgeResult.accepted 200 768 "sub-1" "prob-1" "user-1"
    "2024-01-01T00:00:00Z").add_test_case c1_ok_case).add_test_case c1_wa_case

/-- A rootfs target path. -/
def c4_rootfs : FsPath := ["tmp", "sandbox_rootfs"]

/-- A host filesystem holding only the parent directory of the target. -/
def c4_base_fs : Fsys := { dirs := [["tmp"]], files := [] }

/-- A host filesystem occupied by a prior, un-cleaned environment: the
skeleton directories exist and a leftover `config.json` sits in the rootfs. -/
def c4_dirty_fs : Fsys :=
  { dirs := [["tmp"], c4_rootfs, c4_rootfs ++ ["workspace"]],
    files := [c4_rootfs ++ ["config.json"]] }

/-- A small `JudgeResult` whose `score` is `f64::NAN`. -/
def c8_nan_result : JudgeResult :=
  { status := .SystemError, time_used := 0, memory_used := 0,
    error_info := none, test_cases := [], submission_id := "sub-1",
    problem_id := "prob-1", user_id := "user-1",
    judged_at := "2024-01-01T00:00:00Z", score := f64NaN }

/-- A small `JudgeResult` with a finite score. -/
def c8_finite_result : JudgeResult :=
  { status := .Accepted, time_used := 150, memory_used := 1024,
    error_info := none, test_cases := [], submission_id := "sub-1",
    problem_id := "prob-1", user_id := "user-1",
    judged_at := "2024-01-01T00:00:00Z", score := f64OneHundred }

/-- A test case with a per-case time-limit override and no memory override. -/
def c7_case : TestCase :=
  { id := "tc-1", input := "1", expected_output := "1",
    time_limit := some 300, memory_limit := none, is_hidden := false,
    weight := f64One }

/-- A submission with time limit 100 and memory limit 200. -/
def c7_sub : Submission :=
  { id := "sub-1", problem_id := "prob-1", user_id := "user-1",
    language := .Python3, source_code := "print(1)",
    created_at := "2024-01-01T00:00:00Z", time_limit := 100,
    memory_limit := 200, priority := 0, contest_id := none }

/-- A one-case judge task. -/
def c7_task : JudgeTask := JudgeTask.new c7_sub [c7_case]

/-- A judge task with no test cases. -/
def c7_task_empty : JudgeTask := JudgeTask.new c7_sub []

/-- A sandbox value with a fixed identity and rootfs. -/
def c10_sandbox : ContainerSandbox :=
  { container_id := "judge-1", rootfs := ["tmp", "sandbox_rootfs"] }

/-- A successful backend outcome whose captured stdout is not UTF-8
(`0xFF` is never valid in UTF-8). -/
def c10_bad_stdout : RuncOutput :=
  { success := true, stdout := [0xFF], stderr := [] }

/-- A successful backend outcome with ASCII stdout `"hi"`. -/
def c10_ok_output : RuncOutput :=
  { success := true, stdout := [104, 105], stderr := [] }

/-- Walk a key path through nested JSON objects. -/
def configSection (cfg : Json) (path : List String) : Option Json :=
  path.foldl (fun acc key => acc.bind (fun j => j.lookup key)) (some cfg)

/-!
Helper lemmas (shared; none of them is a claim theorem).
-/

/-- `Option<String>` fields round-trip. -/
theorem decodeOpt_str (o : Option String) :
    decodeOpt decodeString (encodeOpt Json.str o) = some o := by
  cases o <;> rfl

/-- `Option<u32>` fields round-trip. -/
theorem decodeOpt_nat (o : Option Nat) :
    decodeOpt decodeNat (encodeOpt Json.nat o) = some o := by
  cases o <;> rfl

/-- `Option<i32>` fields round-trip. -/
theorem decodeOpt_int (o : Option Int) :
    decodeOpt decodeInt (encodeOpt Json.int o) = some o := by
  cases o <;> rfl

/-- `JudgeStatus` round-trips. -/
theorem rt_status (s : JudgeStatus) :
    decodeJudgeStatus (encodeJudgeStatus s) = some s := by
  cases s with
  | RuntimeError t => cases t <;> rfl
  | _ => rfl

/-- `ErrorInfo` round-trips. -/
theorem rt_errorInfo (e : ErrorInfo) :
    decodeErrorInfo (encodeErrorInfo e) = some e := by
  obtain ⟨m, c, l, col, se, so, ec, sg⟩ := e
  simp [encodeErrorInfo, decodeErrorInfo, decodeOpt_str, decodeOpt_nat,
    decodeOpt_int, decodeString]

/-- An encoded `ErrorInfo` is an object, never `null`. -/
theorem encodeErrorInfo_isNull (e : ErrorInfo) :
    (encodeErrorInfo e).isNull = false := rfl

/-- `Option<ErrorInfo>` fields round-trip. -/
theorem decodeOpt_errorInfo (o : Option ErrorInfo) :
    decodeOpt decodeErrorInfo (encodeOpt encodeErrorInfo o) = some o := by
  cases o with
  | none => rfl
  | some e => simp [decodeOpt, encodeOpt, encodeErrorInfo_isNull, rt_errorInfo]

/-- `TestCaseResult` round-trips. -/
theorem rt_testCaseResult (t : TestCaseResult) :
    decodeTestCaseResult (encodeTestCaseResult t) = some t := by
  obtain ⟨id, st, tu, mu, inp, exp, act, ei⟩ := t
  simp [encodeTestCaseResult, decodeTestCaseResult, rt_status, decodeOpt_str,
    decodeOpt_errorInfo, decodeString, decodeNat]

/-- `Vec<TestCaseResult>` fields round-trip. -/
theorem rt_list_tcr (xs : List TestCaseResult) :
    decodeList decodeTestCaseResult (xs.map encodeTestCaseResult) = some xs := by
  induction xs with
  | nil => rfl
  | cons x rest ih => simp [decodeList, rt_testCaseResult, ih]

/-- `JudgeResult` round-trips whenever its score is a finite `f64`. -/
theorem rt_judgeResult (r : JudgeResult) (h : isFiniteF64 r.score = true) :
    decodeJudgeResult (encodeJudgeResult r) = some r := by
  obtain ⟨st, tu, mu, ei, tcs, sid, pid, uid, ja, sc⟩ := r
  simp only at h
  simp [encodeJudgeResult, decodeJudgeResult, rt_status, decodeOpt_errorInfo,
    decodeArr, rt_list_tcr, encodeF64, decodeF64, h, decodeString, decodeNat]

/-!
Claim theorems.
-/

/-- Claim C9: `is_final` is `false` exactly on `Pending` and `Judging`;
every other status, including every `RuntimeError` sub-kind and `Cancelled`,
is final. -/
theorem is_final_false_iff_pending_or_judging (s : JudgeStatus) :
    s.is_final = false ↔ s = .Pending ∨ s = .Judging := by
  cases s <;> simp [JudgeStatus.is_final]

/-- Claim C6: `JudgeTask::new` derives `needs_compilation` from the
submission's language, sets `compile_flags` to the language's default flags
exactly when compilation is needed (and to `None` otherwise), and always
sets `use_sandbox`. -/
theorem judgeTask_new_fields_derived (sub : Submission) (test_cases : List TestCase) :
    (JudgeTask.new sub test_cases).needs_compilation = sub.language.needs_compilation ∧
    (JudgeTask.new sub test_cases).compile_flags =
      (if sub.language.needs_compilation then some sub.language.default_compile_flags
       else none) ∧
    (JudgeTask.new sub test_cases).use_sandbox = true :=
  ⟨rfl, rfl, rfl⟩

/-- Claim C1, counterexample: the crate's own usage example — a result
built by `JudgeResult::accepted` followed by `add_test_case` calls, one of
them not accepted — has an `is_accepted` status yet `passed_test_cases()`
is 1 while `total_test_cases()` is 2. -/
theorem accepted_status_without_all_passed :
    c1_result.status.is_accepted = true ∧
    c1_result.passed_test_cases = 1 ∧
    c1_result.total_test_cases = 2 := by
  decide

/-- Claim C1, amended: for every `JudgeResult` value,
`passed_test_cases() ≤ total_test_cases()`; results built by the public
constructors `accepted` and `with_error` satisfy
`passed_test_cases() = total_test_cases()` (both 0), but `add_test_case`
never re-derives `status`, so an `is_accepted` status does not imply that
all recorded test cases passed. -/
theorem passed_le_total_and_constructors_balanced :
    (∀ r : JudgeResult, r.passed_test_cases ≤ r.total_test_cases) ∧
    (∀ (t m : Nat) (sid pid uid : Uuid) (now : DateTimeUtc),
      (JudgeResult.accepted t m sid pid uid now).passed_test_cases =
        (JudgeResult.accepted t m sid pid uid now).total_test_cases) ∧
    (∀ (st : JudgeStatus) (t m : Nat) (e : ErrorInfo) (sid pid uid : Uuid)
        (now : DateTimeUtc),
      (JudgeResult.with_error st t m e sid pid uid now).passed_test_cases =
        (JudgeResult.with_error st t m e sid pid uid now).total_test_cases) := by
  refine ⟨fun r => ?_, fun _ _ _ _ _ _ => rfl, fun _ _ _ _ _ _ _ _ => rfl⟩
  exact List.length_filter_le _ _

/-- Claim C8, counterexample: a `JudgeResult` whose `score` is `f64::NAN`
does not round-trip: `serde_json` writes the non-finite score as `null`,
which fails to deserialize as an `f64` (and no `f64` value compares equal
to NaN anyway), so decoding yields no value at all. -/
theorem nan_score_breaks_round_trip :
    decodeJudgeResult (encodeJudgeResult c8_nan_result) = none := by
  decide

/-- Claim C8, amended: encoding then decoding yields an equal value for
every `JudgeStatus` and every `ErrorInfo`, and for every `JudgeResult`
whose `score` is a finite `f64`; a non-finite score is serialized as
`null` and does not round-trip. -/
theorem serde_round_trip :
    (∀ s : JudgeStatus, decodeJudgeStatus (encodeJudgeStatus s) = some s) ∧
    (∀ e : ErrorInfo, decodeErrorInfo (encodeErrorInfo e) = some e) ∧
    (∀ r : JudgeResult, isFiniteF64 r.score = true →
      decodeJudgeResult (encodeJudgeResult r) = some r) :=
  ⟨rt_status, rt_errorInfo, rt_judgeResult⟩

/-- Claim C8, witness: a concrete finite-score result round-trips. -/
theorem serde_round_trip_witness :
    isFiniteF64 c8_finite_result.score = true ∧
    decodeJudgeResult (encodeJudgeResult c8_finite_result) =
      some c8_finite_result :=
  ⟨by decide, serde_round_trip.2.2 c8_finite_result (by decide)⟩

/-- The maximum of a nonempty `List Nat` (with any default) is a member and
an upper bound. -/
theorem max_getD_nonempty (l : List Nat) (d : Nat) (h : l ≠ []) :
    (l.max?.getD d) ∈ l ∧ ∀ x ∈ l, x ≤ l.max?.getD d := by
  cases hm : l.max? with
  | none => rw [List.max?_eq_none_iff] at hm; exact absurd hm h
  | some a =>
    rw [List.max?_eq_some_iff'] at hm
    simpa using hm

/-- Claim C7: `effective_time_limit`/`effective_memory_limit` return the
per-case override when present and the supplied default otherwise, and
`max_time_limit`/`max_memory_limit` return the maximum of these effective
limits across the task's test cases — the submission's limit when there are
none. -/
theorem effective_and_max_limits :
    (∀ (tc : TestCase) (d t0 : Nat), tc.time_limit = some t0 →
       tc.effective_time_limit d = t0) ∧
    (∀ (tc : TestCase) (d : Nat), tc.time_limit = none →
       tc.effective_time_limit d = d) ∧
    (∀ (tc : TestCase) (d m0 : Nat), tc.memory_limit = some m0 →
       tc.effective_memory_limit d = m0) ∧
    (∀ (tc : TestCase) (d : Nat), tc.memory_limit = none →
       tc.effective_memory_limit d = d) ∧
    (∀ t : JudgeTask, t.test_cases = [] →
       t.max_time_limit = t.submission.time_limit ∧
       t.max_memory_limit = t.submission.memory_limit) ∧
    (∀ t : JudgeTask, t.test_cases ≠ [] →
       ((∃ tc ∈ t.test_cases,
           t.max_time_limit = tc.effective_time_limit t.submission.time_limit) ∧
        (∀ tc ∈ t.test_cases,
           tc.effective_time_limit t.submission.time_limit ≤ t.max_time_limit)) ∧
       ((∃ tc ∈ t.test_cases,
           t.max_memory_limit = tc.effective_memory_limit t.submission.memory_limit) ∧
        (∀ tc ∈ t.test_cases,
           tc.effective_memory_limit t.submission.memory_limit ≤ t.max_memory_limit))) := by
  refine ⟨fun tc d t0 h => by simp [TestCase.effective_time_limit, h],
    fun tc d h => by simp [TestCase.effective_time_limit, h],
    fun tc d m0 h => by simp [TestCase.effective_memory_limit, h],
    fun tc d h => by simp [TestCase.effective_memory_limit, h],
    fun t ht => by
      simp [JudgeTask.max_time_limit, JudgeTask.max_memory_limit, ht],
    fun t ht => ⟨?_, ?_⟩⟩
  · have hmap : t.test_cases.map
        (fun tc => tc.time_limit.getD t.submission.time_limit) ≠ [] := by
      simpa using ht
    obtain ⟨hmem, hub⟩ := max_getD_nonempty _ t.submission.time_limit hmap
    constructor
    · obtain ⟨tc, htc, heq⟩ := List.mem_map.mp hmem
      exact ⟨tc, htc, by rw [JudgeTask.max_time_limit, ← heq]; rfl⟩
    · intro tc htc
      exact hub _ (List.mem_map_of_mem _ htc)
  · have hmap : t.test_cases.map
        (fun tc => tc.memory_limit.getD t.submission.memory_limit) ≠ [] := by
      simpa using ht
    obtain ⟨hmem, hub⟩ := max_getD_nonempty _ t.submission.memory_limit hmap
    constructor
    · obtain ⟨tc, htc, heq⟩ := List.mem_map.mp hmem
      exact ⟨tc, htc, by rw [JudgeTask.max_memory_limit, ← heq]; rfl⟩
    · intro tc htc
      exact hub _ (List.mem_map_of_mem _ htc)

/-- Claim C7, witness: at a concrete task — a submission with limits
100/200 and one test case overriding only the time limit to 300 — the
effective limits and the maxima come out as the theorem states. -/
theorem effective_and_max_limits_witness :
    c7_case.time_limit = some 300 ∧
    c7_case.effective_time_limit 100 = 300 ∧
    c7_case.memory_limit = none ∧
    c7_case.effective_memory_limit 200 = 200 ∧
    c7_task_empty.test_cases = [] ∧
    c7_task_empty.max_time_limit = 100 ∧
    c7_task.test_cases ≠ [] ∧
    c7_case.effective_time_limit 100 ≤ c7_task.max_time_limit :=
  ⟨rfl,
   effective_and_max_limits.1 c7_case 100 300 rfl,
   rfl,
   effective_and_max_limits.2.2.2.1 c7_case 200 rfl,
   rfl,
   (effective_and_max_limits.2.2.2.2.1 c7_task_empty rfl).1,
   by decide,
   (effective_and_max_limits.2.2.2.2.2 c7_task (by decide)).1.2 c7_case
     (by decide)⟩

/-- Claim C5: for every command and argument list, the generated
configuration has all five capability sets empty, the six namespaces pid,
network, ipc, uts, mount and user, all device access denied, and exactly
one uid and one gid mapping, each mapping container id 0 to the
unprivileged host id 1000 with size 1. -/
theorem config_isolation_fields (rootfs command : String) (args : List String) :
    configSection (create_container_config rootfs command args)
        ["process", "capabilities", "bounding"] = some (.arr []) ∧
    configSection (create_container_config rootfs command args)
        ["process", "capabilities", "effective"] = some (.arr []) ∧
    configSection (create_container_config rootfs command args)
        ["process", "capabilities", "inheritable"] = some (.arr []) ∧
    configSection (create_container_config rootfs command args)
        ["process", "capabilities", "permitted"] = some (.arr []) ∧
    configSection (create_container_config rootfs command args)
        ["process", "capabilities", "ambient"] = some (.arr []) ∧
    configSection (create_container_config rootfs command args)
        ["linux", "namespaces"] =
      some (.arr [.obj [("type", .str "pid")], .obj [("type", .str "network")],
        .obj [("type", .str "ipc")], .obj [("type", .str "uts")],
        .obj [("type", .str "mount")], .obj [("type", .str "user")]]) ∧
    configSection (create_container_config rootfs command args)
        ["linux", "resources", "devices"] =
      some (.arr [.obj [("allow", .bool false), ("access", .str "rwm")]]) ∧
    configSection (create_container_config rootfs command args)
        ["linux", "uidMappings"] =
      some (.arr [.obj [("containerID", .nat 0), ("hostID", .nat 1000),
        ("size", .nat 1)]]) ∧
    configSection (create_container_config rootfs command args)
        ["linux", "gidMappings"] =
      some (.arr [.obj [("containerID", .nat 0), ("hostID", .nat 1000),
        ("size", .nat 1)]]) ∧
    (1000 : Nat) ≠ 0 :=
  ⟨rfl, rfl, rfl, rfl, rfl, rfl, rfl, rfl, rfl, by decide⟩

/-- Claim C2, code evaluation: for every command and argument list, the
resource-limits section of the generated configuration holds only the
device-deny rule — it contains no memory ceiling and no process-count
ceiling (and the generator receives no limit values at all). -/
theorem config_resources_devices_only (rootfs command : String)
    (args : List String) :
    configSection (create_container_config rootfs command args)
        ["linux", "resources"] =
      some (.obj [("devices",
        .arr [.obj [("allow", .bool false), ("access", .str "rwm")]])]) ∧
    configSection (create_container_config rootfs command args)
        ["linux", "resources", "memory"] = none ∧
    configSection (create_container_config rootfs command args)
        ["linux", "resources", "pids"] = none :=
  ⟨rfl, rfl, rfl⟩

/-- The trace of host operations performed by `run_command`: the
`config.json` write, then (when the write succeeded) the `runc run`
invocation — nothing else, on any path. -/
theorem run_command_trace (sb : ContainerSandbox) (write_ok : Bool)
    (spawn : Option RuncOutput) :
    (sb.run_command write_ok spawn).1 =
      if !write_ok then [.writeConfig sb.rootfs]
      else [.writeConfig sb.rootfs, .runcRun sb.rootfs sb.container_id] := by
  cases write_ok with
  | false => rfl
  | true =>
    cases spawn with
    | none => rfl
    | some out =>
      cases hs : out.success <;>
        simp [ContainerSandbox.run_command, string_from_utf8, hs] <;>
        split <;> rfl

/-- Claim C3, code evaluation: on every path of `run_command` — success,
non-success exit, spawn failure or write failure — the performed operations
contain no backend deletion and no rootfs removal; those operations are
only ever performed by the separate methods `cleanup` and `cleanup_rootfs`,
which the caller must invoke. -/
theorem run_command_never_cleans_up :
    (∀ (sb : ContainerSandbox) (write_ok : Bool) (spawn : Option RuncOutput),
       (sb.run_command write_ok spawn).1.filter (fun op => op.isCleanup) = []) ∧
    (∀ sb : ContainerSandbox, sb.cleanup = [.runcDelete sb.container_id]) ∧
    (∀ (sb : ContainerSandbox) (rootfs_exists : Bool),
       sb.cleanup_rootfs rootfs_exists =
         if rootfs_exists then [.removeDirAll sb.rootfs] else []) := by
  refine ⟨?_, fun _ => rfl, fun _ _ => rfl⟩
  intro sb write_ok spawn
  rw [run_command_trace]
  cases write_ok <;> rfl

/-- Claim C4, code evaluation: `ContainerSandbox::new` re-invoked on the
empty skeleton it just built succeeds (the claim's idempotence half), and
invoked on a rootfs occupied by a prior, un-cleaned environment — the
skeleton plus a leftover `config.json` — it also succeeds, silently merging
instead of failing as the claim requires: `create_dir_all` ignores entries
it did not create. -/
theorem provisioning_merges_with_leftover_state :
    (((ContainerSandbox.new "judge-1" c4_rootfs c4_base_fs).map Prod.snd).bind
        (fun fs1 => ContainerSandbox.new "judge-1" c4_rootfs fs1)).isSome = true ∧
    (ContainerSandbox.new "judge-1" c4_rootfs c4_dirty_fs).isSome = true := by
  decide

/-- Claim C10, counterexample: a backend outcome with a successful exit
status whose captured stdout is the byte `0xFF` (not valid UTF-8) makes
`run_command` return an error, so "returns Ok exactly when the exit status
is success" fails. -/
theorem success_exit_yet_error :
    c10_bad_stdout.success = true ∧
    (c10_sandbox.run_command true (some c10_bad_stdout)).2 =
      .error .invalidUtf8 :=
  ⟨rfl, rfl⟩

/-- Claim C10, amended: given the spec write and the backend invocation
themselves succeed, `run_command` returns Ok exactly when the exit status
is success and the captured stdout is valid UTF-8, and then returns the
decoded stdout; on a non-success exit it returns an error embedding the
captured stderr when that is valid UTF-8 (a UTF-8 decoding error
otherwise), with no further classification of the failure. -/
theorem run_command_ok_iff_success_and_utf8 (sb : ContainerSandbox)
    (out : RuncOutput) :
    (out.success = true →
      (sb.run_command true (some out)).2 =
        (if validUtf8 out.stdout then .ok out.stdout
         else .error .invalidUtf8)) ∧
    (out.success = false →
      (sb.run_command true (some out)).2 =
        (if validUtf8 out.stderr then .error (.commandFailed out.stderr)
         else .error .invalidUtf8)) := by
  refine ⟨fun hs => ?_, fun hs => ?_⟩
  · cases hv : validUtf8 out.stdout <;>
      simp [ContainerSandbox.run_command, string_from_utf8, hs, hv]
  · cases hv : validUtf8 out.stderr <;>
      simp [ContainerSandbox.run_command, string_from_utf8, hs, hv]

/-- Claim C10, witness: a successful exit with ASCII stdout `"hi"` returns
Ok with exactly those bytes. -/
theorem run_command_ok_iff_witness :
    c10_ok_output.success = true ∧
    (c10_sandbox.run_command true (some c10_ok_output)).2 = .ok [104, 105] := by
  refine ⟨rfl, ?_⟩
  have h := (run_command_ok_iff_success_and_utf8 c10_sandbox c10_ok_output).1 rfl
  rw [h]
  rfl
